import Mathlib

set_option maxHeartbeats 1600000

/-!
Shallow embedding of the C sources of AutoUniTestGen:
  * src/test/mcdc_state_fullopen_test.c : global bit-field state,
    `evaluate_condition`, and the nine MC/DC test cases;
  * src/demo_output/complex_sample.c : `processCommand`;
  * src/include/common.h : the `CLAMP` macro.
Machine integers are modelled as `Nat`/`Int`; bit-field assignments
truncate modulo the field width; nullable `char*` parameters are
`Option String`.
-/

/- Constants from src/test/mcdc_state_fullopen_test.c (lines 10-13). -/

def ACT_INIT : Nat := 2

def ACT_NORMAL : Nat := 0

def ACT_SETTING : Nat := 1

def ACT_GLITCH : Nat := 3

/-- The bit-field member `mState.bit` (test file lines 17-29); each field
stores the value held by the corresponding C bit field. -/
structure MStateBit where
  state : Nat
  act : Nat
  half : Nat
  rvs : Nat
  handmv : Nat
  stopsw : Nat
  init : Nat
  strk : Nat
  test : Nat
  error : Nat
  safestop : Nat
  deriving Repr, DecidableEq

/-- The global `mState` (test file lines 16-31): a struct holding the
bit-field struct `bit` and a separate `uint16_t dat`. -/
structure MState where
  bit : MStateBit
  dat : Nat
  deriving Repr, DecidableEq

/-- The global `mHandyData` (test file lines 33-51), flattened to its three
`uint8_t` leaves `info.special.info.af_power_on`,
`info.door.info.op_power_push` and `info.netlink.info.unlock`. -/
structure MHandyData where
  af_power_on : Nat
  op_power_push : Nat
  unlock : Nat
  deriving Repr, DecidableEq

/-- The whole global state read and written by the test file. -/
structure Globals where
  mState : MState
  mHandyData : MHandyData
  deriving Repr, DecidableEq

/-- `evaluate_condition` (test file lines 73-78) as a pure function of the
globals it reads; `vHANDY_SET_POWERPON_SEQ` abbreviates
`mHandyData.info.special.info.af_power_on` and `vHANDY_SET_OP_POWER_PUSH`
abbreviates `mHandyData.info.door.info.op_power_push`. -/
def evaluate_condition_pure (g : Globals) : Bool :=
  (g.mState.bit.act == ACT_INIT) &&
    ((g.mHandyData.af_power_on == 1) || (g.mHandyData.af_power_on == 2) ||
      (g.mHandyData.af_power_on == 3) || (g.mHandyData.af_power_on == 6) ||
      (g.mHandyData.af_power_on == 7) || (g.mHandyData.af_power_on == 8)) &&
    (g.mHandyData.op_power_push == 0)

/-- `evaluate_condition` in state-passing form: the body contains no
assignment, so the out-state is the in-state. -/
def evaluate_condition (g : Globals) : Bool × Globals :=
  (evaluate_condition_pure g, g)

/- Assignments performed by the test cases.  C bit-field / `uint8_t`
assignment truncates to the field width (2 bits for `act`, 8 bits for the
`mHandyData` leaves, 16 bits for `dat`). -/

/-- `mState.bit.act = v` (a 2-bit field). -/
def assignAct (g : Globals) (v : Nat) : Globals :=
  { g with mState := { g.mState with bit := { g.mState.bit with act := v % 4 } } }

/-- `vHANDY_SET_POWERPON_SEQ = v`, i.e. `mHandyData.info.special.info.af_power_on = v`. -/
def assignPowerOnSeq (g : Globals) (v : Nat) : Globals :=
  { g with mHandyData := { g.mHandyData with af_power_on := v % 256 } }

/-- `vHANDY_SET_OP_POWER_PUSH = v`, i.e. `mHandyData.info.door.info.op_power_push = v`. -/
def assignOpPowerPush (g : Globals) (v : Nat) : Globals :=
  { g with mHandyData := { g.mHandyData with op_power_push := v % 256 } }

/-- `setUp` (test file lines 60-66): `mState.dat = 0`, then both relevant
`mHandyData` leaves are cleared.  Note it writes `mState.dat`, not the
bit-field member. -/
def setUpGlobals (g : Globals) : Globals :=
  assignOpPowerPush (assignPowerOnSeq { g with mState := { g.mState with dat := 0 } } 0) 0

/- The nine MC/DC test cases (test file lines 103-229), each as the state
transformer its body performs after `setUp` and the bool the assertion
checks. -/

def mcdc_case_01 (g : Globals) : Globals :=
  assignOpPowerPush (assignPowerOnSeq (assignAct (setUpGlobals g) ACT_INIT) 1) 0

def mcdc_case_02 (g : Globals) : Globals :=
  assignOpPowerPush (assignPowerOnSeq (assignAct (setUpGlobals g) ACT_NORMAL) 1) 0

def mcdc_case_03 (g : Globals) : Globals :=
  assignOpPowerPush (assignPowerOnSeq (assignAct (setUpGlobals g) ACT_INIT) 0) 0

def mcdc_case_04 (g : Globals) : Globals :=
  assignOpPowerPush (assignPowerOnSeq (assignAct (setUpGlobals g) ACT_INIT) 1) 1

def mcdc_case_05 (g : Globals) : Globals :=
  assignOpPowerPush (assignPowerOnSeq (assignAct (setUpGlobals g) ACT_INIT) 2) 0

def mcdc_case_06 (g : Globals) : Globals :=
  assignOpPowerPush (assignPowerOnSeq (assignAct (setUpGlobals g) ACT_INIT) 3) 0

def mcdc_case_07 (g : Globals) : Globals :=
  assignOpPowerPush (assignPowerOnSeq (assignAct (setUpGlobals g) ACT_INIT) 6) 0

def mcdc_case_08 (g : Globals) : Globals :=
  assignOpPowerPush (assignPowerOnSeq (assignAct (setUpGlobals g) ACT_INIT) 7) 0

def mcdc_case_09 (g : Globals) : Globals :=
  assignOpPowerPush (assignPowerOnSeq (assignAct (setUpGlobals g) ACT_INIT) 8) 0

/- ===== src/demo_output/complex_sample.c ===== -/

/- PermissionLevel enum (complex_sample.c lines 19-24), by underlying value;
the parameter itself is modelled as `Int`. -/

def PERM_ADMIN : Int := 3

def PERM_USER : Int := 2

def PERM_GUEST : Int := 1

def PERM_NONE : Int := 0

/-- C `isspace` on the characters relevant to `atoi`. -/
def isCSpace (c : Char) : Bool :=
  c = ' ' || c = '\t' || c = '\n' || c = '\x0b' || c = '\x0c' || c = '\r'

/-- Accumulate the leading decimal digits of a character list onto `acc`,
as C `atoi` does once the sign is consumed (overflow-free model). -/
def atoiDigits : List Char → Int → Int
  | [], acc => acc
  | c :: cs, acc =>
      if c.isDigit then atoiDigits cs (acc * 10 + ((c.toNat : Int) - 48)) else acc

/-- C `atoi` on a character list: skip leading whitespace, take an optional
sign, then the leading digit run; anything else yields 0. -/
def atoiList : List Char → Int
  | [] => 0
  | c :: cs =>
      if isCSpace c then atoiList cs
      else if c = '-' then - atoiDigits cs 0
      else if c = '+' then atoiDigits cs 0
      else atoiDigits (c :: cs) 0

/-- C `atoi` on a string. -/
def atoi (s : String) : Int := atoiList s.data

/-- The dot-counting loop of the `nping` branch (complex_sample.c lines
168-171). -/
def dotCount (s : String) : Nat := s.data.count '.'

/-- `processCommand` (complex_sample.c lines 32-214).  `command`, `arg1`
and `arg2` are nullable C strings; `userPerm` is the `PermissionLevel`
argument by value and `isDebugMode` the C `int` flag (truth = nonzero).
The local `result` starts at 0 and each branch that assigns it is a leaf
below; branches that never assign it leave the initial 0. -/
def processCommand (command arg1 arg2 : Option String) (userPerm isDebugMode : Int) : Int :=
  match command with
  | none => -1
  | some cmd =>
    if cmd.length = 0 then -1
    else
      match cmd.data with
      | [] => -1
      | c0 :: _ =>
        if c0 = 'f' then
          if cmd = "fopen" ∨ cmd = "fclose" then
            if (userPerm ≥ PERM_USER ∧ arg1 ≠ none) ∨
                (userPerm = PERM_ADMIN ∧ isDebugMode ≠ 0) then
              if cmd = "fopen" then
                match arg1, arg2 with
                | some a1, some a2 =>
                  if a1.length > 0 ∧ a2.length > 0 then
                    if a2 = "r" ∨ a2 = "rb" then 1
                    else if a2 = "w" ∨ a2 = "wb" then
                      if userPerm ≥ PERM_ADMIN then 1 else -2
                    else 0
                  else -1
                | _, _ => -1
              else 1
            else -2
          else 0
        else if c0 = 'u' then
          if cmd = "uadd" ∨ cmd = "udel" then
            if userPerm = PERM_ADMIN then
              if cmd = "uadd" then
                match arg1, arg2 with
                | some a1, some a2 =>
                  if (atoi a2 ≥ PERM_GUEST ∧ atoi a2 ≤ PERM_ADMIN) ∧
                      a1.length ≥ 3 ∧ a1.length ≤ 20 then 1
                  else -1
                | _, _ => 0
              else 1
            else -2
          else 0
        else if c0 = 's' then
          if cmd = "status" ∨ cmd = "shutdown" then
            if cmd = "status" then 1
            else
              if userPerm = PERM_ADMIN ∧ isDebugMode = 0 then 1
              else if isDebugMode ≠ 0 then -3
              else -2
          else 0
        else if c0 = 'n' then
          if cmd = "nping" ∨ cmd = "nconnect" then
            match arg1 with
            | none => -2
            | some a1 =>
              if userPerm ≥ PERM_USER ∨ isDebugMode ≠ 0 then
                if cmd = "nping" then
                  if dotCount a1 = 3 ∧ a1.length ≥ 7 then 1 else -1
                else
                  match arg2 with
                  | none => 0
                  | some a2 =>
                    if atoi a2 > 0 ∧ atoi a2 ≤ 65535 then 1 else -1
              else -2
          else 0
        else -1

/- ===== src/include/common.h ===== -/

/-- The `CLAMP(val, min, max)` function macro (common.h line 13):
`((val) < (min) ? (min) : ((val) > (max) ? (max) : (val)))`. -/
def CLAMP (val mn mx : Int) : Int :=
  if val < mn then mn else if val > mx then mx else val

/-- Claim C1: `evaluate_condition` returns true iff `mState.bit.act == ACT_INIT`,
`af_power_on` is one of 1, 2, 3, 6, 7, 8, and `op_power_push == 0`; on
every other global state it returns false. -/
theorem evaluate_condition_iff (g : Globals) :
    (evaluate_condition g).1 = true ↔
      g.mState.bit.act = ACT_INIT ∧
        (g.mHandyData.af_power_on = 1 ∨ g.mHandyData.af_power_on = 2 ∨
          g.mHandyData.af_power_on = 3 ∨ g.mHandyData.af_power_on = 6 ∨
          g.mHandyData.af_power_on = 7 ∨ g.mHandyData.af_power_on = 8) ∧
        g.mHandyData.op_power_push = 0 := by
  simp only [evaluate_condition, evaluate_condition_pure, Bool.and_eq_true,
    Bool.or_eq_true, beq_iff_eq]
  tauto

/-- Claim C2: each of the nine MC/DC test cases, run from any prior global state,
produces its documented outcome: cases 1, 5, 6, 7, 8, 9 make
`evaluate_condition` return true and cases 2, 3, 4 make it return false. -/
theorem mcdc_cases_outcomes (g : Globals) :
    (evaluate_condition (mcdc_case_01 g)).1 = true ∧
      (evaluate_condition (mcdc_case_02 g)).1 = false ∧
      (evaluate_condition (mcdc_case_03 g)).1 = false ∧
      (evaluate_condition (mcdc_case_04 g)).1 = false ∧
      (evaluate_condition (mcdc_case_05 g)).1 = true ∧
      (evaluate_condition (mcdc_case_06 g)).1 = true ∧
      (evaluate_condition (mcdc_case_07 g)).1 = true ∧
      (evaluate_condition (mcdc_case_08 g)).1 = true ∧
      (evaluate_condition (mcdc_case_09 g)).1 = true := by
  refine ⟨rfl, rfl, rfl, rfl, rfl, rfl, rfl, rfl, rfl⟩

/-- Claim C9: `evaluate_condition` is a pure observer of the globals: it leaves
the global state exactly unchanged, and from equal global states two calls
return equal results. -/
theorem evaluate_condition_frame (g g2 : Globals) (h : g = g2) :
    (evaluate_condition g).2 = g ∧
      (evaluate_condition g).1 = (evaluate_condition g2).1 := by
  subst h; exact ⟨rfl, rfl⟩

/-- Witness for C9 at a concrete global state. -/
theorem evaluate_condition_frame_witness :
    (evaluate_condition ⟨⟨⟨0, 2, 0, 0, 0, 0, 0, 0, 0, 0, 0⟩, 0⟩, ⟨1, 0, 0⟩⟩).2 =
        ⟨⟨⟨0, 2, 0, 0, 0, 0, 0, 0, 0, 0, 0⟩, 0⟩, ⟨1, 0, 0⟩⟩ ∧
      (evaluate_condition ⟨⟨⟨0, 2, 0, 0, 0, 0, 0, 0, 0, 0, 0⟩, 0⟩, ⟨1, 0, 0⟩⟩).1 =
        (evaluate_condition ⟨⟨⟨0, 2, 0, 0, 0, 0, 0, 0, 0, 0, 0⟩, 0⟩, ⟨1, 0, 0⟩⟩).1 :=
  evaluate_condition_frame _ _ rfl

/- Helper lemmas about `processCommand` (not claim theorems). -/

/-- Every leaf of `processCommand` is one of -3, -2, -1, 0, 1. -/
theorem processCommand_range (c a1 a2 : Option String) (p d : Int) :
    processCommand c a1 a2 p d = -3 ∨ processCommand c a1 a2 p d = -2 ∨
      processCommand c a1 a2 p d = -1 ∨ processCommand c a1 a2 p d = 0 ∨
      processCommand c a1 a2 p d = 1 := by
  unfold processCommand
  rcases c with _ | cmd
  · simp
  · repeat' split
    all_goals simp

/-- On the concrete command `"shutdown"` the whole dispatch reduces to the
shutdown branch of complex_sample.c lines 138-155. -/
theorem shutdown_eval (a1 a2 : Option String) (p d : Int) :
    processCommand (some "shutdown") a1 a2 p d =
      if p = PERM_ADMIN ∧ d = 0 then 1 else if d ≠ 0 then -3 else -2 := rfl

/-- Only the shutdown branch can yield -3. -/
theorem not_shutdown_ne_neg3 (cmd : String) (a1 a2 : Option String) (p d : Int)
    (hne : cmd ≠ "shutdown") : processCommand (some cmd) a1 a2 p d ≠ -3 := by
  unfold processCommand
  repeat' split
  all_goals simp_all

/-- Claim C3: whenever `processCommand` returns a negative value, that value
is one of -1, -2 or -3. -/
theorem processCommand_neg_codes (c a1 a2 : Option String) (p d : Int)
    (h : processCommand c a1 a2 p d < 0) :
    processCommand c a1 a2 p d = -1 ∨ processCommand c a1 a2 p d = -2 ∨
      processCommand c a1 a2 p d = -3 := by
  rcases processCommand_range c a1 a2 p d with h1 | h1 | h1 | h1 | h1 <;> omega

/-- Witness for C3: a NULL command returns a negative value, and it is one
of the three codes. -/
theorem processCommand_neg_codes_witness :
    processCommand none none none 0 0 = -1 ∨ processCommand none none none 0 0 = -2 ∨
      processCommand none none none 0 0 = -3 :=
  processCommand_neg_codes none none none 0 0 (by decide)

/-- Claim C4: `processCommand` returns -3 exactly when the command is
`"shutdown"` and `isDebugMode` is nonzero. -/
theorem processCommand_neg3_iff (c a1 a2 : Option String) (p d : Int) :
    processCommand c a1 a2 p d = -3 ↔ c = some "shutdown" ∧ d ≠ 0 := by
  constructor
  · intro h
    rcases c with _ | cmd
    · simp [processCommand] at h
    · by_cases hs : cmd = "shutdown"
      · subst hs
        refine ⟨rfl, ?_⟩
        intro hd
        rw [shutdown_eval] at h
        subst hd
        simp at h
        split at h <;> omega
      · exact absurd h (not_shutdown_ne_neg3 cmd a1 a2 p d hs)
  · rintro ⟨rfl, hd⟩
    rw [shutdown_eval]
    have hp : ¬(p = PERM_ADMIN ∧ d = 0) := by tauto
    simp [hp, hd]

/-- Counterexample to claim C5 as stated: with the highest permission level
(`PERM_ADMIN`, which grants every command's required permission) and a NULL
`arg1`, `fclose` still returns -2, so -2 is not returned only on
insufficient permission. -/
theorem processCommand_neg2_at_admin :
    processCommand (some "fclose") none none PERM_ADMIN 0 = -2 := rfl

/-- Claim C5 (amended): `processCommand` returns -2 only when the permission
check fails or a required argument is NULL; whenever `userPerm = PERM_ADMIN`
and `arg1` is non-NULL, the result is never -2. -/
theorem processCommand_admin_arg1_ne_neg2 (c a1 a2 : Option String) (d : Int)
    (h : a1 ≠ none) : processCommand c a1 a2 PERM_ADMIN d ≠ -2 := by
  unfold processCommand
  repeat' split
  all_goals simp_all [PERM_ADMIN, PERM_USER, PERM_GUEST, PERM_NONE]

/-- Witness for the amended C5 at a concrete input. -/
theorem processCommand_admin_arg1_ne_neg2_witness :
    processCommand (some "fclose") (some "data.txt") none PERM_ADMIN 0 ≠ -2 :=
  processCommand_admin_arg1_ne_neg2 (some "fclose") (some "data.txt") none 0 (by decide)

/-- Counterexample to claim C6 as stated: `"fx"` is non-empty and is none of
the eight recognized commands, yet `processCommand` returns 0, not -1. -/
theorem processCommand_unknown_f_returns_zero :
    processCommand (some "fx") none none 0 0 = 0 ∧
      processCommand (some "fx") none none 0 0 ≠ -1 := ⟨rfl, by decide⟩

/-- Claim C6 (amended): a non-empty command whose first character is none of
f, u, s, n reaches the default branch and returns -1 regardless of the other
arguments; unrecognized commands that share a recognized first letter fall
through with result 0 instead. -/
theorem processCommand_unknown_letter (cmd : String) (a1 a2 : Option String) (p d : Int)
    (hne : cmd ≠ "")
    (hc : ∀ c0, cmd.data.head? = some c0 → c0 ≠ 'f' ∧ c0 ≠ 'u' ∧ c0 ≠ 's' ∧ c0 ≠ 'n') :
    processCommand (some cmd) a1 a2 p d = -1 := by
  rcases hdata : cmd.data with _ | ⟨c0, tl⟩
  · simp [processCommand, String.length, hdata]
  · have h4 := hc c0 (by rw [hdata]; rfl)
    simp [processCommand, String.length, hdata, h4.1, h4.2.1, h4.2.2.1, h4.2.2.2]

/-- Witness for the amended C6 at the concrete command `"zzz"`. -/
theorem processCommand_unknown_letter_witness :
    processCommand (some "zzz") none none 0 0 = -1 :=
  processCommand_unknown_letter "zzz" none none 0 0 (by decide)
    (by
      intro c0 h
      have h2 : some 'z' = some c0 := h
      cases h2
      exact ⟨by decide, by decide, by decide, by decide⟩)

/-- Claim C7: a NULL command or an empty command string makes
`processCommand` return -1, for all other arguments. -/
theorem processCommand_null_or_empty (a1 a2 : Option String) (p d : Int) :
    processCommand none a1 a2 p d = -1 ∧ processCommand (some "") a1 a2 p d = -1 :=
  ⟨rfl, rfl⟩

/-- Claim C8: the result of `processCommand` always lies in
\x7b-3, -2, -1, 0, 1\x7d, and 0 is reachable: `fopen` with valid permission,
non-empty arguments and a mode other than r/rb/w/wb returns 0, and so does
the unrecognized command `"foo"` that shares the first letter of `fopen`. -/
theorem processCommand_result_range_and_zero :
    (∀ c a1 a2 : Option String, ∀ p d : Int,
        processCommand c a1 a2 p d ∈ ([-3, -2, -1, 0, 1] : List Int)) ∧
      processCommand (some "fopen") (some "data.txt") (some "x") PERM_USER 0 = 0 ∧
      processCommand (some "foo") (some "a") none PERM_USER 0 = 0 := by
  refine ⟨fun c a1 a2 p d => ?_, rfl, rfl⟩
  rcases processCommand_range c a1 a2 p d with h | h | h | h | h <;> simp [h]

/-- Claim C10: for min ≤ max, `CLAMP` returns a value inside [min, max],
and returns `val` itself whenever `val` is already inside the interval. -/
theorem CLAMP_spec (val mn mx : Int) (h : mn ≤ mx) :
    mn ≤ CLAMP val mn mx ∧ CLAMP val mn mx ≤ mx ∧
      (mn ≤ val → val ≤ mx → CLAMP val mn mx = val) := by
  unfold CLAMP
  refine ⟨?_, ?_, fun hv1 hv2 => ?_⟩ <;> (repeat' split) <;> omega

/-- Witness for C10 at val = 5, min = 0, max = 10. -/
theorem CLAMP_spec_witness :
    0 ≤ CLAMP 5 0 10 ∧ CLAMP 5 0 10 ≤ 10 ∧
      (0 ≤ (5 : Int) → (5 : Int) ≤ 10 → CLAMP 5 0 10 = 5) :=
  CLAMP_spec 5 0 10 (by decide)
